import Mathlib

/-!
Window inventory (`lib/linux/xwindows.c`): embedding and verified properties

The C functions `locale_to_utf8`, `get_property`, `get_window_title`,
`get_client_list` and `create_window_info` are embedded as pure functions.

* Memory is a list of bytes (`Nat` below 256); a freshly `malloc`ed cell that
  has not been written is `none` in a `List (Option Nat)`.
* `unsigned long` / `size_t` arithmetic is `Nat` arithmetic modulo
  `2 ^ (8 * sizeof_long)`; `long` is `Int`.
* Xlib (`XInternAtom`, `XGetWindowProperty`) and libc `iconv` are external:
  they are parameters of the embedding (`Display`, `Host.iconv`).
* Out-parameters (`Error* err`, `unsigned long* size`) are returned values;
  a caller that passes `NULL` drops them.
* A store that falls outside its buffer is recorded in the trace of
  `locale_to_utf8`; what it overwrites is not modelled.
-/

namespace Xwindows

/-! ## Platform -/

/-- Result of one `iconv` call: the value stored in `int ret`, the number of
input bytes consumed and the bytes written through `*outbuf`. -/
structure IconvResult where
  ret : Int
  consumed : Nat
  out : List Nat
deriving DecidableEq, Repr

/-- The compilation host: `sizeof(long)` (also the size of `size_t`, `Window`
and of a pointer), the constant `MAX_PROPERTY_VALUE_LEN` of the absent header
`xwindows.h`, and the behaviour of `iconv` from the locale encoding to UTF-8
(source bytes, `outbytes_left` on entry). -/
structure Host where
  sizeof_long : Nat
  MAX_PROPERTY_VALUE_LEN : Nat
  iconv : List Nat → Nat → IconvResult

/-- Number of values of an `unsigned long`. -/
def Host.ulong_range (h : Host) : Nat := 2 ^ (8 * h.sizeof_long)

/-- Conversion of a mathematical integer to `unsigned long` / `size_t`. -/
def Host.to_ulong (h : Host) (z : Int) : Nat := (z % (h.ulong_range : Int)).toNat

/-- Conversion `(signed long) x` of an `unsigned long` value. -/
def Host.to_long (h : Host) (x : Nat) : Int :=
  if 2 * (x % h.ulong_range) < h.ulong_range then ((x % h.ulong_range : Nat) : Int)
  else ((x % h.ulong_range : Nat) : Int) - (h.ulong_range : Int)

/-! ## Bytes in memory (little-endian host) -/

/-- The `k` low-order bytes of `v`, least significant first. -/
def le_bytes : Nat → Nat → List Nat
  | 0, _ => []
  | k + 1, v => (v % 256) :: le_bytes k (v / 256)

/-- The value of a little-endian byte sequence. -/
def le_value : List Nat → Nat
  | [] => 0
  | b :: bs => b + 256 * le_value bs

/-- Read of `((unsigned long*)buf)[i]`; `none` when the read leaves the
allocation. -/
def read_ulong (h : Host) (buf : List Nat) (i : Nat) : Option Nat :=
  if (i + 1) * h.sizeof_long ≤ buf.length then
    some (le_value ((buf.drop (i * h.sizeof_long)).take h.sizeof_long))
  else none

/-- The bytes of a C string: everything before the first NUL (`strlen` bytes). -/
def c_str (buf : List Nat) : List Nat := buf.takeWhile (fun b => b != 0)

/-- Function `strdup`: the string and its terminating NUL in fresh storage. -/
def strdup (buf : List Nat) : List Nat := c_str buf ++ [0]

/-! ## Errors -/

/-- Modelled from the spec: the record `Error` of the absent header `error.h`,
a kind code and a message (the field the source reads is `error_str`). -/
structure Error where
  code : Int
  error_str : String
deriving DecidableEq, Repr

/-- Modelled from the spec: `fill_error`, whose definition is not among the
sources. The spec describes it as a pure formatter producing a
`{kind, message}` pair; the `printf`-style substitution of the `%s` arguments
is done at each call site. -/
def fill_error (code : Int) (message : String) : Error := ⟨code, message⟩

/-! ## Xlib -/

/-- Status `Success` of `X.h`. -/
def Success : Nat := 0
/-- Predefined atom `XA_CARDINAL` of `Xatom.h`. -/
def XA_CARDINAL : Nat := 6
/-- Predefined atom `XA_STRING` of `Xatom.h`. -/
def XA_STRING : Nat := 31
/-- Predefined atom `XA_WINDOW` of `Xatom.h`. -/
def XA_WINDOW : Nat := 33

/-- Everything `XGetWindowProperty` hands back: its status and the five
out-parameters. `ret_prop` is the client-side buffer as bytes. -/
structure XReply where
  status : Nat
  xa_ret_type : Nat
  ret_format : Nat
  ret_nitems : Nat
  ret_bytes_after : Nat
  ret_prop : List Nat
deriving DecidableEq, Repr

/-- The connection to the X server, as far as this file uses it.
`XGetWindowProperty win property long_offset long_length req_type`
(the `delete` argument is always `False`). -/
structure Display where
  XInternAtom : String → Nat
  XGetWindowProperty : Nat → Nat → Nat → Nat → Nat → XReply
  DefaultRootWindow : Nat

/-! ## `locale_to_utf8` -/

/-- What `locale_to_utf8` does: its return value and the stores it performs,
each as (offset from the start of the destination buffer, byte). Addresses are
flat: `dest[k]` for a `size_t k` is the address `dest + k` modulo the size of
the address space, so the offset is a signed number. -/
structure ConvResult where
  ret : Int
  writes : List (Int × Nat)
deriving DecidableEq, Repr

/-- Embedding of `locale_to_utf8(src, dest, size)`. `src` is the source buffer
(a C string); `size` is accepted and not used, as in the source. -/
def locale_to_utf8 (h : Host) (src : List Nat) (size : Nat) : ConvResult :=
  let _unused := size
  let src_size := (c_str src).length
  let outbytes_left := h.to_ulong ((h.MAX_PROPERTY_VALUE_LEN : Int) - 1)
  let r := h.iconv (c_str src) outbytes_left
  -- iconv advanced `dest` and decreased both counters
  let src_size' := h.to_ulong ((src_size : Int) - (r.consumed : Int))
  let outbytes_left' := h.to_ulong ((outbytes_left : Int) - (r.out.length : Int))
  let dest' : Int := r.out.length
  let stores : List (Int × Nat) := r.out.enum.map (fun p => ((p.1 : Int), p.2))
  if r.ret < 0 then ⟨-1, stores⟩
  else
    let idx := h.to_ulong ((src_size' : Int) - 1 - (outbytes_left' : Int))
    let off := h.to_long (h.to_ulong (dest' + (idx : Int)))
    ⟨0, stores ++ [(off, 0)]⟩

/-- Apply one store to a buffer; a store outside the buffer leaves it as is. -/
def store (buf : List (Option Nat)) (w : Int × Nat) : List (Option Nat) :=
  if 0 ≤ w.1 ∧ w.1.toNat < buf.length then buf.set w.1.toNat (some w.2) else buf

/-- Function `malloc(n)`: `n` cells of indeterminate content. -/
def malloc (n : Nat) : List (Option Nat) := List.replicate n none

/-! ## `get_property` -/

/-- The request `get_property` sends: the property atom is interned from its
name, the offset is 0 and the length `MAX_PROPERTY_VALUE_LEN / 4`. -/
def property_request (h : Host) (disp : Display) (win xa_prop_type : Nat) (prop_name : String) :
    XReply :=
  let xa_prop_name := disp.XInternAtom prop_name
  disp.XGetWindowProperty win xa_prop_name 0 (h.MAX_PROPERTY_VALUE_LEN / 4) xa_prop_type

/-- Embedding of `get_property`: on failure the error passed to `fill_error`;
on success the owned, NUL-terminated copy `ret` and the value stored through
`size`. -/
def get_property (h : Host) (disp : Display) (win xa_prop_type : Nat) (prop_name : String) :
    Except Error (List Nat × Nat) :=
  let r := property_request h disp win xa_prop_type prop_name
  if r.status ≠ Success then
    .error (fill_error 1 ("Cannot get " ++ prop_name ++ " property.\n"))
  else if r.xa_ret_type ≠ xa_prop_type then
    .error (fill_error 1 ("Invalid type of " ++ prop_name ++ " property.\n"))
  else
    let tmp_size := ((r.ret_format / 8) * r.ret_nitems) % h.ulong_range
    let tmp_size := if r.ret_format = 32 then (tmp_size * (h.sizeof_long / 4)) % h.ulong_range
                    else tmp_size
    .ok (r.ret_prop.take tmp_size ++ [0], tmp_size)

/-! ## `get_window_title` -/

/-- What `get_window_title` hands back: the returned pointer (`none` for
`NULL`, otherwise the cells of the returned buffer) and the error it stored
through `err`, if it stored one. -/
structure TitleResult where
  title_utf8 : Option (List (Option Nat))
  err : Option Error
deriving DecidableEq, Repr

/-- Embedding of `get_window_title`. Both properties are requested first
(`WM_NAME`, then `_NET_WM_NAME`); the stores of `locale_to_utf8` that fall
inside the `MAX_PROPERTY_VALUE_LEN`-byte buffer are applied to it. -/
def get_window_title (h : Host) (disp : Display) (win : Nat) : TitleResult :=
  let wm_name := get_property h disp win XA_STRING "WM_NAME"
  let net_wm_name := get_property h disp win (disp.XInternAtom "UTF8_STRING") "_NET_WM_NAME"
  match net_wm_name with
  | .ok (net, _) => ⟨some ((strdup net).map some), none⟩
  | .error err_net_wm =>
    match wm_name with
    | .ok (wm, _) =>
      let title_utf8 := malloc h.MAX_PROPERTY_VALUE_LEN
      let r := locale_to_utf8 h wm h.MAX_PROPERTY_VALUE_LEN
      if r.ret ≠ 0 then
        ⟨none, some (fill_error 1 "Failed to convert windowname to UTF-8!")⟩
      else ⟨some (r.writes.foldl store title_utf8), none⟩
    | .error err_wm =>
      ⟨none, some (fill_error 1 ("Could not get window name: (" ++ err_net_wm.error_str
        ++ ") (" ++ err_wm.error_str ++ ")"))⟩

/-- The C string held by a buffer: the bytes before the first NUL; `none`
when an indeterminate cell or the end of the buffer comes first. -/
def c_string_of : List (Option Nat) → Option (List Nat)
  | [] => none
  | none :: _ => none
  | some b :: rest => if b = 0 then some [] else (c_string_of rest).map (fun t => b :: t)

/-! ## `get_client_list` -/

/-- Embedding of `get_client_list`: the client list buffer and the byte size
stored through `size`, or the combined error. -/
def get_client_list (h : Host) (disp : Display) : Except Error (List Nat × Nat) :=
  match get_property h disp disp.DefaultRootWindow XA_WINDOW "_NET_CLIENT_LIST" with
  | .ok r => .ok r
  | .error err_net =>
    match get_property h disp disp.DefaultRootWindow XA_CARDINAL "_WIN_CLIENT_LIST" with
    | .ok r => .ok r
    | .error err_win =>
      .error (fill_error 1 ("Cannot get client list properties. " ++ "_NET_CLIENT_LIST: "
        ++ err_net.error_str ++ " or _WIN_CLIENT_LIST: " ++ err_win.error_str))

/-! ## `create_window_info` -/

/-- The bytes of an ASCII text. -/
def bytes_of (s : String) : List Nat := s.toList.map Char.toNat

/-- Modelled from the spec: the record `WindowInfo` of the absent header
`xwindows.h` (session handle, borrowed window identifier, owned title, signed
desktop id). `win` is the pointer `&client_list[i]`, kept as the index `i` into
the shared client list; `desktop_id` is a signed integer as wide as `long`
(`none`: the value was read from outside the property buffer); `title` is the
owned title buffer. The session handle is the ambient display. -/
structure WindowInfo where
  win : Nat
  desktop_id : Option Int
  title : List (Option Nat)
deriving DecidableEq, Repr

/-- The three arguments of one call
`printf("0x%.8lx %2ld %s\n", client_list[i], desktop, title_utf8)`. -/
structure PrintfArgs where
  win : Nat
  desktop : Option Int
  title : List (Option Nat)
deriving DecidableEq, Repr

/-- What `create_window_info` produces: the returned count, the array stored
through `window_info` (`none` when no store happens), the decoded client list
the `win` pointers point into, the error stored through `err`, and the calls
of `printf` in order. -/
structure EnumResult where
  ret : Nat
  window_info : Option (List WindowInfo)
  client_list : List Nat
  err : Option Error
  stdout : List PrintfArgs
deriving DecidableEq, Repr

/-- The call `snprintf(title_utf8, 16, "UNKNOWN %d", i)` on a fresh 16-byte
buffer: at most 15 characters and a NUL. -/
def snprintf_unknown (i : Nat) : List (Option Nat) :=
  let text := (bytes_of ("UNKNOWN " ++ toString i)).take 15
  (text ++ [0]).map some ++ malloc (16 - (text.length + 1))

/-- The desktop lookup of the loop body: `_NET_WM_DESKTOP`, then
`_WIN_WORKSPACE`, both as `XA_CARDINAL`; `none` is the `NULL` pointer. -/
def desktop_lookup (h : Host) (disp : Display) (win : Nat) : Option (List Nat) :=
  match get_property h disp win XA_CARDINAL "_NET_WM_DESKTOP" with
  | .ok (d, _) => some d
  | .error _ =>
    match get_property h disp win XA_CARDINAL "_WIN_WORKSPACE" with
    | .ok (d, _) => some d
    | .error _ => none

/-- Element `client_list[i]` of the client list buffer. -/
def client_at (h : Host) (client_list : List Nat) (i : Nat) : Nat :=
  (read_ulong h client_list i).getD 0

/-- One iteration of the loop of `create_window_info`: the record written to
`windows[i]` and the arguments of the `printf` call. -/
def window_entry (h : Host) (disp : Display) (client_list : List Nat) (i : Nat) :
    WindowInfo × PrintfArgs :=
  let win := client_at h client_list i
  let title_utf8 :=
    match (get_window_title h disp win).title_utf8 with
    | some t => t
    | none => snprintf_unknown i
  let desktop := desktop_lookup h disp win
  let printed : Option Int :=
    match desktop with
    | some d => (read_ulong h d 0).map h.to_long
    | none => some 0
  let desktop_id : Option Int :=
    match desktop with
    | some d => (read_ulong h d 0).map h.to_long
    | none => some (h.to_long (h.to_ulong (-2)))
  (⟨i, desktop_id, title_utf8⟩, ⟨win, printed, title_utf8⟩)

/-- Embedding of `create_window_info`; `sizeof(Window)` is `sizeof(long)`. -/
def create_window_info (h : Host) (disp : Display) : EnumResult :=
  match get_client_list h disp with
  | .error e => ⟨0, none, [], some e, []⟩
  | .ok (client_list, client_list_size) =>
    let num_windows := client_list_size / h.sizeof_long
    let entries := (List.range num_windows).map (window_entry h disp client_list)
    ⟨num_windows,
     if num_windows = 0 then none else some (entries.map Prod.fst),
     (List.range num_windows).map (client_at h client_list),
     none,
     entries.map Prod.snd⟩

/-! ## `printf` rendering -/

/-- Conversion `%.8lx`: lower-case hexadecimal, at least 8 digits. -/
def fmt_lx8 (n : Nat) : List Nat :=
  let d := (Nat.toDigits 16 n).map Char.toNat
  List.replicate (8 - d.length) 48 ++ d

/-- Conversion `%2ld`: decimal, right-aligned in at least 2 columns. -/
def fmt_ld2 (z : Int) : List Nat :=
  let d := bytes_of (toString z)
  List.replicate (2 - d.length) 32 ++ d

/-- The text of one printed line, `"0x%.8lx %2ld %s\n"` applied to the
arguments; `none` when an argument is indeterminate or the title is not a
terminated string. -/
def render_line (a : PrintfArgs) : Option (List Nat) :=
  match a.desktop, c_string_of a.title with
  | some d, some t =>
    some (bytes_of "0x" ++ fmt_lx8 a.win ++ [32] ++ fmt_ld2 d ++ [32] ++ t ++ [10])
  | _, _ => none

/-! ## Xlib's client-side representation and sample sessions -/

/-- A 32-bit item as Xlib stores it in an array of `long`: sign-extended to
the width of `long`. -/
def xlib_long (h : Host) (v : Nat) : Nat :=
  if 2 ^ 31 ≤ v % 2 ^ 32 then (v % 2 ^ 32 + (h.ulong_range - 2 ^ 32)) % h.ulong_range
  else v % 2 ^ 32

/-- The buffer Xlib returns for a format-32 property with the given items. -/
def xlib_longs (h : Host) (items : List Nat) : List Nat :=
  items.flatMap (fun v => le_bytes h.sizeof_long (xlib_long h v))

/-- The successful reply for a format-32 property of type `ty`. -/
def reply32 (h : Host) (ty : Nat) (items : List Nat) : XReply :=
  ⟨Success, ty, 32, items.length, 0, xlib_longs h items⟩

/-- The successful reply for a format-8 property of type `ty`. -/
def reply8 (ty : Nat) (text : List Nat) : XReply :=
  ⟨Success, ty, 8, text.length, 0, text⟩

/-- The reply for a property that does not exist: type `None`, format 0. -/
def reply_absent : XReply := ⟨Success, 0, 0, 0, 0, []⟩

/-- The reply carries a format-8 property of type `ty` whose bytes are `t`. -/
def holds_text (r : XReply) (ty : Nat) (t : List Nat) : Prop :=
  r.status = Success ∧ r.xa_ret_type = ty ∧ r.ret_format = 8 ∧ r.ret_nitems = t.length ∧
    r.ret_prop.take t.length = t

/-- The reply carries a format-32 property of type `ty` whose items are
`items`, stored as Xlib stores them. -/
def holds_items (h : Host) (r : XReply) (ty : Nat) (items : List Nat) : Prop :=
  r.status = Success ∧ r.xa_ret_type = ty ∧ r.ret_format = 32 ∧ r.ret_nitems = items.length ∧
    r.ret_prop.take (items.length * h.sizeof_long) = xlib_longs h items

/-- The reply carries no usable property of type `ty`: the request failed, or
the returned type is not the requested one (an absent property has type
`None`). -/
def lacks (r : XReply) (ty : Nat) : Prop :=
  r.status ≠ Success ∨ r.xa_ret_type ≠ ty

/-- The server returned no more data than the `long_length` of the request
allows (`MAX_PROPERTY_VALUE_LEN / 4` units of 32 bits). -/
def within_cap (h : Host) (r : XReply) : Prop :=
  (r.ret_format / 8) * r.ret_nitems ≤ 4 * (h.MAX_PROPERTY_VALUE_LEN / 4)

instance (r : XReply) (ty : Nat) (t : List Nat) : Decidable (holds_text r ty t) := by
  unfold holds_text; infer_instance

instance (h : Host) (r : XReply) (ty : Nat) (items : List Nat) :
    Decidable (holds_items h r ty items) := by
  unfold holds_items; infer_instance

instance (r : XReply) (ty : Nat) : Decidable (lacks r ty) := by
  unfold lacks; infer_instance

instance (h : Host) (r : XReply) : Decidable (within_cap h r) := by
  unfold within_cap; infer_instance

/-- The text `sub` occurs in `s`. -/
def occurs_in (sub s : String) : Prop := sub.data <:+: s.data

/-- A 32-bit cardinal reinterpreted as a signed 32-bit number. -/
def signed32 (v : Nat) : Int :=
  if v % 2 ^ 32 < 2 ^ 31 then ((v % 2 ^ 32 : Nat) : Int)
  else ((v % 2 ^ 32 : Nat) : Int) - 2 ^ 32

/-- An `iconv` for an ASCII-compatible locale: ASCII input that fits is copied;
anything else is reported as an error. -/
def iconv_ascii (src : List Nat) (outbytes_left : Nat) : IconvResult :=
  if src.all (fun b => b < 128) ∧ src.length ≤ outbytes_left then ⟨0, src.length, src⟩
  else ⟨-1, 0, []⟩

/-- A host with 8-byte `long` and `MAX_PROPERTY_VALUE_LEN = 4096`. -/
def host64 : Host := ⟨8, 4096, iconv_ascii⟩

/-- A host with 4-byte `long` and `MAX_PROPERTY_VALUE_LEN = 4096`. -/
def host32 : Host := ⟨4, 4096, iconv_ascii⟩

/-- A session built from a table: atoms are interned by `atom`, and a request
answers with the table entry when the requested type matches the stored one,
with the stored type and no data when it does not, and with `reply_absent`
when there is no entry. -/
def session (atom : String → Nat) (root : Nat) (props : Nat → Nat → Option XReply) : Display :=
  ⟨atom,
   fun win prop _ _ req =>
     match props win prop with
     | some r =>
       if r.xa_ret_type = req then r else ⟨Success, r.xa_ret_type, r.ret_format, 0, 0, []⟩
     | none => reply_absent,
   root⟩

/-- Atom numbering used by the sample sessions. -/
def sample_atom (name : String) : Nat :=
  if name = "UTF8_STRING" then 100
  else if name = "WM_NAME" then 39
  else if name = "_NET_WM_NAME" then 101
  else if name = "_NET_CLIENT_LIST" then 102
  else if name = "_WIN_CLIENT_LIST" then 103
  else if name = "_NET_WM_DESKTOP" then 104
  else if name = "_WIN_WORKSPACE" then 105
  else 199

/-- Two windows 7 and 9 in `_NET_CLIENT_LIST`: window 7 has
`_NET_WM_NAME = "Alpha"` and a `WM_NAME` of the wrong type, window 9 has only
`WM_NAME = "Beta"` and `_NET_WM_DESKTOP = 0xFFFFFFFF`. -/
def two_windows (h : Host) : Display :=
  session sample_atom 1 (fun w p =>
    if w = 1 ∧ p = 102 then some (reply32 h XA_WINDOW [7, 9])
    else if w = 7 ∧ p = 101 then some (reply8 100 (bytes_of "Alpha"))
    else if w = 7 ∧ p = 39 then some (reply32 h XA_CARDINAL [5])
    else if w = 9 ∧ p = 39 then some (reply8 XA_STRING (bytes_of "Beta"))
    else if w = 9 ∧ p = 104 then some (reply32 h XA_CARDINAL [0xFFFFFFFF])
    else none)

/-- Every window carries one five-element cardinal property under every name. -/
def five_cardinals (h : Host) : Display :=
  session sample_atom 1 (fun _ _ => some (reply32 h XA_CARDINAL [1, 2, 3, 4, 5]))

instance decEqExcept {ε α : Type} [DecidableEq ε] [DecidableEq α] : DecidableEq (Except ε α)
  | .error a, .error b =>
    if h : a = b then isTrue (by rw [h]) else isFalse (fun h2 => h (Except.error.inj h2))
  | .ok a, .ok b =>
    if h : a = b then isTrue (by rw [h]) else isFalse (fun h2 => h (Except.ok.inj h2))
  | .error _, .ok _ => isFalse (fun h => by cases h)
  | .ok _, .error _ => isFalse (fun h => by cases h)

/-- A session in which no window has any property. -/
def no_properties : Display := session sample_atom 1 (fun _ _ => none)

/-- One window 7 in `_NET_CLIENT_LIST`, without any property of its own. -/
def lone_window (h : Host) : Display :=
  session sample_atom 1 (fun w p =>
    if w = 1 ∧ p = 102 then some (reply32 h XA_WINDOW [7]) else none)

/-- One window 7 in `_NET_CLIENT_LIST` whose `_NET_WM_DESKTOP` is the cardinal
`0xFFFFFFFE`. -/
def desktop_fffffffe (h : Host) : Display :=
  session sample_atom 1 (fun w p =>
    if w = 1 ∧ p = 102 then some (reply32 h XA_WINDOW [7])
    else if w = 7 ∧ p = 104 then some (reply32 h XA_CARDINAL [0xFFFFFFFE])
    else none)

/-- The root window carries a `_NET_CLIENT_LIST` of zero windows. -/
def empty_client_list (h : Host) : Display :=
  session sample_atom 1 (fun w p =>
    if w = 1 ∧ p = 102 then some (reply32 h XA_WINDOW []) else none)

/-! ## Basic facts about the embedding -/

theorem ulong_range_four (h : Host) (hl : h.sizeof_long = 4) : h.ulong_range = 4294967296 := by
  simp [Host.ulong_range, hl]

theorem ulong_range_eight (h : Host) (hl : h.sizeof_long = 8) :
    h.ulong_range = 18446744073709551616 := by
  simp [Host.ulong_range, hl]

theorem le_value_le_bytes (k v : Nat) : le_value (le_bytes k v) = v % 256 ^ k := by
  induction k generalizing v with
  | zero => simp [le_bytes, le_value, Nat.mod_one]
  | succ k ih =>
    simp only [le_bytes, le_value, ih]
    rw [pow_succ', Nat.mod_mul]

theorem length_le_bytes (k v : Nat) : (le_bytes k v).length = k := by
  induction k generalizing v with
  | zero => rfl
  | succ k ih => simp [le_bytes, ih]

theorem length_xlib_longs (h : Host) (items : List Nat) :
    (xlib_longs h items).length = items.length * h.sizeof_long := by
  induction items with
  | nil => simp [xlib_longs]
  | cons v vs ih =>
    simp only [xlib_longs, List.flatMap_cons, List.length_append, length_le_bytes,
      List.length_cons] at ih ⊢
    rw [ih]; ring

theorem xlib_long_lt (h : Host) (hl : h.sizeof_long = 4 ∨ h.sizeof_long = 8) (v : Nat) :
    xlib_long h v < 256 ^ h.sizeof_long := by
  unfold xlib_long
  rcases hl with hl | hl
  · rw [ulong_range_four h hl, hl]; split <;> omega
  · rw [ulong_range_eight h hl, hl]; split <;> omega

theorem read_ulong_xlib_longs (h : Host) (hl : h.sizeof_long = 4 ∨ h.sizeof_long = 8)
    (items tail : List Nat) (i : Nat) (hi : i < items.length) :
    read_ulong h (xlib_longs h items ++ tail) i = some (xlib_long h (items.getD i 0)) := by
  induction items generalizing i with
  | nil => simp at hi
  | cons v vs ih =>
    cases i with
    | zero =>
      have hlen : h.sizeof_long ≤ (xlib_longs h (v :: vs) ++ tail).length := by
        rw [List.length_append, length_xlib_longs]; simp; nlinarith
      simp only [read_ulong, zero_add, one_mul, hlen, if_true, zero_mul, List.drop_zero,
        List.getD_cons_zero]
      simp only [xlib_longs, List.flatMap_cons, List.append_assoc]
      rw [List.take_left' (length_le_bytes _ _), le_value_le_bytes,
        Nat.mod_eq_of_lt (xlib_long_lt h hl v)]
    | succ j =>
      have hj : j < vs.length := by simpa using hi
      have := ih j hj
      simp only [read_ulong] at this ⊢
      have e1 : (xlib_longs h (v :: vs) ++ tail).length
          = h.sizeof_long + (xlib_longs h vs ++ tail).length := by
        simp only [xlib_longs, List.flatMap_cons, List.length_append, length_le_bytes]
        ring
      have e2 : (xlib_longs h (v :: vs) ++ tail).drop ((j + 1) * h.sizeof_long)
          = (xlib_longs h vs ++ tail).drop (j * h.sizeof_long) := by
        have : (j + 1) * h.sizeof_long = (le_bytes h.sizeof_long (xlib_long h v)).length
            + j * h.sizeof_long := by rw [length_le_bytes]; ring
        simp only [xlib_longs, List.flatMap_cons, List.append_assoc]
        rw [this, List.drop_append]
      rw [e1, e2]
      have e3 : (j + 1 + 1) * h.sizeof_long ≤ h.sizeof_long + (xlib_longs h vs ++ tail).length
          ↔ (j + 1) * h.sizeof_long ≤ (xlib_longs h vs ++ tail).length := by
        constructor <;> intro hh <;> nlinarith
      simp only [e3, List.getD_cons_succ]
      exact this

theorem to_long_xlib_long (h : Host) (hl : h.sizeof_long = 4 ∨ h.sizeof_long = 8) (v : Nat) :
    h.to_long (xlib_long h v) = signed32 v := by
  unfold Host.to_long xlib_long signed32
  rcases hl with hl | hl
  · rw [ulong_range_four h hl]
    split <;> split <;> split <;> omega
  · rw [ulong_range_eight h hl]
    split <;> split <;> split <;> omega

theorem to_long_minus_two (h : Host) (hl : h.sizeof_long = 4 ∨ h.sizeof_long = 8) :
    h.to_long (h.to_ulong (-2)) = -2 := by
  unfold Host.to_long Host.to_ulong
  rcases hl with hl | hl
  · rw [ulong_range_four h hl]; decide
  · rw [ulong_range_eight h hl]; decide


/-! ## `get_property` -/

theorem get_property_of_lacks (h : Host) (disp : Display) (win ty : Nat) (name : String)
    (hl : lacks (property_request h disp win ty name) ty) :
    ∃ e, get_property h disp win ty name = .error e ∧ e.code = 1 ∧
      (e.error_str = "Cannot get " ++ name ++ " property.\n" ∨
       e.error_str = "Invalid type of " ++ name ++ " property.\n") := by
  unfold get_property
  by_cases hs : (property_request h disp win ty name).status = Success
  · have ht : (property_request h disp win ty name).xa_ret_type ≠ ty := by
      rcases hl with hl | hl
      · exact absurd hs hl
      · exact hl
    exact ⟨fill_error 1 ("Invalid type of " ++ name ++ " property.\n"), by simp [hs, ht], rfl,
      Or.inr rfl⟩
  · exact ⟨fill_error 1 ("Cannot get " ++ name ++ " property.\n"), by simp [hs], rfl,
      Or.inl rfl⟩

theorem get_property_of_not_lacks (h : Host) (disp : Display) (win ty : Nat) (name : String)
    (hl : ¬ lacks (property_request h disp win ty name) ty) :
    ∃ r, get_property h disp win ty name = .ok r := by
  unfold lacks at hl
  push_neg at hl
  unfold get_property
  simp only [hl.1, hl.2, ne_eq, not_true_eq_false, if_false]
  exact ⟨_, rfl⟩

theorem get_property_text (h : Host) (disp : Display) (win ty : Nat) (name : String)
    (t : List Nat) (hlen : t.length < h.ulong_range)
    (ht : holds_text (property_request h disp win ty name) ty t) :
    get_property h disp win ty name = .ok (t ++ [0], t.length) := by
  obtain ⟨hs, hty, hf, hn, hp⟩ := ht
  unfold get_property
  simp [hs, hty, hf, hn, hp, Nat.mod_eq_of_lt hlen]

theorem get_property_items (h : Host) (disp : Display) (win ty : Nat) (name : String)
    (items : List Nat) (hl : h.sizeof_long = 4 ∨ h.sizeof_long = 8)
    (hlen : items.length * h.sizeof_long < h.ulong_range)
    (ht : holds_items h (property_request h disp win ty name) ty items) :
    get_property h disp win ty name
      = .ok (xlib_longs h items ++ [0], items.length * h.sizeof_long) := by
  obtain ⟨hs, hty, hf, hn, hp⟩ := ht
  have hsz : (32 / 8 * items.length % h.ulong_range * (h.sizeof_long / 4)) % h.ulong_range
      = items.length * h.sizeof_long := by
    rcases hl with hl | hl
    · rw [ulong_range_four h hl] at hlen ⊢
      rw [hl] at hlen ⊢
      omega
    · rw [ulong_range_eight h hl] at hlen ⊢
      rw [hl] at hlen ⊢
      omega
  unfold get_property
  simp only [hs, hty, hf, hn, ne_eq, not_true_eq_false, if_false, if_true, hsz, hp]

theorem c_str_append_nul (t rest : List Nat) (hnz : ∀ b ∈ t, b ≠ 0) :
    c_str (t ++ 0 :: rest) = t := by
  unfold c_str
  induction t with
  | nil => simp
  | cons b bs ih =>
    have hb : b ≠ 0 := hnz b (List.mem_cons_self _ _)
    have := ih (fun x hx => hnz x (List.mem_cons_of_mem _ hx))
    simp [List.takeWhile_cons, hb, this]

theorem c_string_of_terminated (t : List Nat) (hnz : ∀ b ∈ t, b ≠ 0) (rest : List (Option Nat)) :
    c_string_of (t.map some ++ some 0 :: rest) = some t := by
  induction t with
  | nil => simp [c_string_of]
  | cons b bs ih =>
    have hb : b ≠ 0 := hnz b (List.mem_cons_self _ _)
    have := ih (fun x hx => hnz x (List.mem_cons_of_mem _ hx))
    simp [c_string_of, hb, this]

/-! ## Claims about `get_property` and `get_window_title` -/

/-- C1: when the `_NET_WM_NAME` request answers with a `UTF8_STRING` property
holding the text `t` (no NUL byte, length representable), `get_window_title`
returns a buffer holding exactly `t` and its terminating NUL and stores no
error, whatever the `WM_NAME` request answers. -/
theorem get_window_title_net_wm_name (h : Host) (disp : Display) (win : Nat) (t : List Nat)
    (hnz : ∀ b ∈ t, b ≠ 0) (hlen : t.length < h.ulong_range)
    (ht : holds_text (property_request h disp win (disp.XInternAtom "UTF8_STRING") "_NET_WM_NAME")
      (disp.XInternAtom "UTF8_STRING") t) :
    get_window_title h disp win = ⟨some ((t ++ [0]).map some), none⟩ ∧
    (get_window_title h disp win).title_utf8.bind c_string_of = some t := by
  have hg := get_property_text h disp win _ "_NET_WM_NAME" t hlen ht
  have hd : strdup (t ++ [0]) = t ++ [0] := by
    unfold strdup; rw [c_str_append_nul t [] hnz]
  have h1 : get_window_title h disp win = ⟨some ((t ++ [0]).map some), none⟩ := by
    unfold get_window_title
    simp only [hg, hd]
  refine ⟨h1, ?_⟩
  rw [h1]
  have := c_string_of_terminated t hnz []
  simpa using this

/-- C1 at a concrete session: window 7 of `two_windows` has the title "Alpha"
although its `WM_NAME` has the wrong type. -/
theorem get_window_title_net_wm_name_witness :
    get_window_title host64 (two_windows host64) 7
        = ⟨some ((bytes_of "Alpha" ++ [0]).map some), none⟩ ∧
      (get_window_title host64 (two_windows host64) 7).title_utf8.bind c_string_of
        = some (bytes_of "Alpha") :=
  get_window_title_net_wm_name host64 (two_windows host64) 7 (bytes_of "Alpha")
    (by decide) (by decide) (by decide)

/-- C3 as stated fails: on a host with 8-byte `long`, a 32-bit-format property
of 5 elements is reported with byte length 40, not 20. -/
theorem get_property_size_five_is_forty :
    (get_property host64 (five_cardinals host64) 1 XA_CARDINAL "_NET_WM_DESKTOP").toOption.map
        Prod.snd = some 40 ∧
    (get_property host64 (five_cardinals host64) 1 XA_CARDINAL "_NET_WM_DESKTOP").toOption.map
        Prod.snd ≠ some (4 * 5) := by
  decide

/-- C3 amended: for a 32-bit-format property of `n` elements on a host with
4- or 8-byte `long`, the byte length reported through `size` is
`n * sizeof(long)` (as an `unsigned long`): `4 * n` on the former, `8 * n` on
the latter. -/
theorem get_property_size_format32 (h : Host) (disp : Display) (win ty : Nat) (name : String)
    (n : Nat) (hl : h.sizeof_long = 4 ∨ h.sizeof_long = 8)
    (hs : (property_request h disp win ty name).status = Success)
    (ht : (property_request h disp win ty name).xa_ret_type = ty)
    (hf : (property_request h disp win ty name).ret_format = 32)
    (hn : (property_request h disp win ty name).ret_nitems = n) :
    (get_property h disp win ty name).toOption.map Prod.snd
      = some ((n * h.sizeof_long) % h.ulong_range) := by
  unfold get_property
  simp only [hs, ht, hf, hn, ne_eq, not_true_eq_false, if_false, if_true, Except.toOption,
    Option.map]
  rcases hl with hl | hl
  · rw [ulong_range_four h hl, hl]; congr 1; omega
  · rw [ulong_range_eight h hl, hl]; congr 1; omega

/-- C3 amended, at `n = 5` on both hosts: 20 bytes with 4-byte `long`, 40 bytes
with 8-byte `long`. -/
theorem get_property_size_format32_witness :
    (get_property host32 (five_cardinals host32) 1 XA_CARDINAL "_NET_WM_DESKTOP").toOption.map
        Prod.snd = some ((5 * host32.sizeof_long) % host32.ulong_range) ∧
    (5 * host32.sizeof_long) % host32.ulong_range = 20 ∧
    (get_property host64 (five_cardinals host64) 1 XA_CARDINAL "_NET_WM_DESKTOP").toOption.map
        Prod.snd = some ((5 * host64.sizeof_long) % host64.ulong_range) ∧
    (5 * host64.sizeof_long) % host64.ulong_range = 40 :=
  ⟨get_property_size_format32 host32 (five_cardinals host32) 1 XA_CARDINAL "_NET_WM_DESKTOP" 5
      (by decide) (by decide) (by decide) (by decide) (by decide),
   by decide,
   get_property_size_format32 host64 (five_cardinals host64) 1 XA_CARDINAL "_NET_WM_DESKTOP" 5
      (by decide) (by decide) (by decide) (by decide) (by decide),
   by decide⟩

/-- C4 as stated fails: for a `WM_NAME` of type `CARDINAL` requested as
`STRING` the stored message is not "Invalid type of WM_NAME property." but that
text followed by a newline. -/
theorem get_property_mismatch_message_has_newline :
    get_property host64 (two_windows host64) 7 XA_STRING "WM_NAME"
      = .error ⟨1, "Invalid type of WM_NAME property.\n"⟩ ∧
    get_property host64 (two_windows host64) 7 XA_STRING "WM_NAME"
      ≠ .error ⟨1, "Invalid type of WM_NAME property."⟩ := by
  decide

/-- C4 amended: whenever the request succeeds and the returned type atom
differs from the requested one, `get_property` returns no buffer and reports
error code 1 with the message "Invalid type of <name> property." followed by a
newline. -/
theorem get_property_type_mismatch (h : Host) (disp : Display) (win ty : Nat) (name : String)
    (hs : (property_request h disp win ty name).status = Success)
    (ht : (property_request h disp win ty name).xa_ret_type ≠ ty) :
    get_property h disp win ty name
      = .error ⟨1, "Invalid type of " ++ name ++ " property." ++ "\n"⟩ := by
  unfold get_property
  simp only [hs, ht, ne_eq, not_true_eq_false, not_false_eq_true, if_false, if_true, fill_error,
    String.append_assoc]
  rfl

/-- C4 amended, at a `WM_NAME` of type `CARDINAL` requested as `STRING`. -/
theorem get_property_type_mismatch_witness :
    get_property host64 (two_windows host64) 7 XA_STRING "WM_NAME"
      = .error ⟨1, "Invalid type of " ++ "WM_NAME" ++ " property." ++ "\n"⟩ :=
  get_property_type_mismatch host64 (two_windows host64) 7 XA_STRING "WM_NAME"
    (by decide) (by decide)

/-! ## `get_client_list` and the shape of `create_window_info` -/

theorem occurs_in_middle (p a q : String) : occurs_in a (p ++ a ++ q) := by
  unfold occurs_in
  simp only [String.data_append]
  exact List.infix_append _ _ _

theorem occurs_in_end (p a : String) : occurs_in a (p ++ a) := by
  unfold occurs_in
  simp only [String.data_append]
  exact (List.suffix_append _ _).isInfix

theorem create_window_info_of_error (h : Host) (disp : Display) (e : Error)
    (hg : get_client_list h disp = .error e) :
    create_window_info h disp = ⟨0, none, [], some e, []⟩ := by
  unfold create_window_info
  rw [hg]

theorem create_window_info_of_ok (h : Host) (disp : Display) (cl : List Nat) (sz : Nat)
    (hg : get_client_list h disp = .ok (cl, sz)) :
    create_window_info h disp =
      ⟨sz / h.sizeof_long,
       if sz / h.sizeof_long = 0 then none
       else some (((List.range (sz / h.sizeof_long)).map (window_entry h disp cl)).map Prod.fst),
       (List.range (sz / h.sizeof_long)).map (client_at h cl),
       none,
       ((List.range (sz / h.sizeof_long)).map (window_entry h disp cl)).map Prod.snd⟩ := by
  unfold create_window_info
  rw [hg]

/-- C8: `get_client_list` fails exactly when both the `_NET_CLIENT_LIST`
request (as `XA_WINDOW`) and the `_WIN_CLIENT_LIST` request (as `XA_CARDINAL`)
on the root window fail; when only the first fails the legacy list is
returned; and when both fail `create_window_info` returns 0 with an error
whose message contains both property names and both sub-error messages. -/
theorem get_client_list_fallback (h : Host) (disp : Display) :
    ((get_client_list h disp).toOption = none ↔
      (get_property h disp disp.DefaultRootWindow XA_WINDOW "_NET_CLIENT_LIST").toOption = none ∧
      (get_property h disp disp.DefaultRootWindow XA_CARDINAL "_WIN_CLIENT_LIST").toOption
        = none) ∧
    (∀ e_net r,
      get_property h disp disp.DefaultRootWindow XA_WINDOW "_NET_CLIENT_LIST" = .error e_net →
      get_property h disp disp.DefaultRootWindow XA_CARDINAL "_WIN_CLIENT_LIST" = .ok r →
      get_client_list h disp = .ok r) ∧
    (∀ e_net e_win,
      get_property h disp disp.DefaultRootWindow XA_WINDOW "_NET_CLIENT_LIST" = .error e_net →
      get_property h disp disp.DefaultRootWindow XA_CARDINAL "_WIN_CLIENT_LIST" = .error e_win →
      ∃ e, create_window_info h disp = ⟨0, none, [], some e, []⟩ ∧
        occurs_in "_NET_CLIENT_LIST" e.error_str ∧ occurs_in "_WIN_CLIENT_LIST" e.error_str ∧
        occurs_in e_net.error_str e.error_str ∧ occurs_in e_win.error_str e.error_str) := by
  refine ⟨?_, ?_, ?_⟩
  · unfold get_client_list
    cases hn : get_property h disp disp.DefaultRootWindow XA_WINDOW "_NET_CLIENT_LIST" with
    | ok r => simp [Except.toOption]
    | error e_net =>
      cases hw : get_property h disp disp.DefaultRootWindow XA_CARDINAL "_WIN_CLIENT_LIST" with
      | ok r => simp [Except.toOption]
      | error e_win => simp [Except.toOption]
  · intro e_net r hn hw
    unfold get_client_list
    rw [hn, hw]
  · intro e_net e_win hn hw
    have hg : get_client_list h disp = .error (fill_error 1
        ("Cannot get client list properties. " ++ "_NET_CLIENT_LIST: "
          ++ e_net.error_str ++ " or _WIN_CLIENT_LIST: " ++ e_win.error_str)) := by
      unfold get_client_list
      rw [hn, hw]
    refine ⟨_, create_window_info_of_error h disp _ hg, ?_, ?_, ?_, ?_⟩
    · have := occurs_in_middle "Cannot get client list properties. " "_NET_CLIENT_LIST"
        (": " ++ e_net.error_str ++ " or _WIN_CLIENT_LIST: " ++ e_win.error_str)
      simpa [fill_error, String.append_assoc] using this
    · have := occurs_in_middle ("Cannot get client list properties. " ++ "_NET_CLIENT_LIST: "
        ++ e_net.error_str ++ " or ") "_WIN_CLIENT_LIST" (": " ++ e_win.error_str)
      simpa [fill_error, String.append_assoc] using this
    · have := occurs_in_middle ("Cannot get client list properties. " ++ "_NET_CLIENT_LIST: ")
        e_net.error_str (" or _WIN_CLIENT_LIST: " ++ e_win.error_str)
      simpa [fill_error, String.append_assoc] using this
    · exact occurs_in_end _ _

/-- C8 at a session without any property: both requests fail and the combined
error names both properties and carries both sub-errors. -/
theorem get_client_list_fallback_witness :
    ∃ e, create_window_info host64 no_properties = ⟨0, none, [], some e, []⟩ ∧
      occurs_in "_NET_CLIENT_LIST" e.error_str ∧ occurs_in "_WIN_CLIENT_LIST" e.error_str ∧
      occurs_in "Invalid type of _NET_CLIENT_LIST property.\n" e.error_str ∧
      occurs_in "Invalid type of _WIN_CLIENT_LIST property.\n" e.error_str :=
  (get_client_list_fallback host64 no_properties).2.2
    ⟨1, "Invalid type of _NET_CLIENT_LIST property.\n"⟩
    ⟨1, "Invalid type of _WIN_CLIENT_LIST property.\n"⟩ (by decide) (by decide)

/-! ## Entries of `create_window_info` -/

theorem create_window_info_entry (h : Host) (disp : Display) (i : Nat)
    (hi : i < (create_window_info h disp).ret) :
    ∃ cl sz, get_client_list h disp = .ok (cl, sz) ∧ i < sz / h.sizeof_long ∧
      (create_window_info h disp).ret = sz / h.sizeof_long ∧
      (create_window_info h disp).err = none ∧
      (create_window_info h disp).stdout.length = sz / h.sizeof_long ∧
      (∃ ws, (create_window_info h disp).window_info = some ws ∧
        ws.length = sz / h.sizeof_long ∧ ws[i]? = some (window_entry h disp cl i).1) ∧
      (create_window_info h disp).stdout[i]? = some (window_entry h disp cl i).2 ∧
      (create_window_info h disp).client_list[i]? = some (client_at h cl i) := by
  cases hg : get_client_list h disp with
  | error e =>
    rw [create_window_info_of_error h disp e hg] at hi
    simp at hi
  | ok r =>
    obtain ⟨cl, sz⟩ := r
    rw [create_window_info_of_ok h disp cl sz hg] at hi ⊢
    simp only at hi
    have hne : sz / h.sizeof_long ≠ 0 := by omega
    refine ⟨cl, sz, rfl, hi, rfl, rfl, by simp,
      ⟨((List.range (sz / h.sizeof_long)).map (window_entry h disp cl)).map Prod.fst,
        by simp only [hne, if_false], by simp, ?_⟩, ?_, ?_⟩
    · simp [List.getElem?_map, List.getElem?_range hi]
    · simp [List.getElem?_map, List.getElem?_range hi]
    · simp [List.getElem?_map, List.getElem?_range hi]

theorem desktop_lookup_net (h : Host) (disp : Display) (win : Nat) (d : List Nat) (sz : Nat)
    (hn : get_property h disp win XA_CARDINAL "_NET_WM_DESKTOP" = .ok (d, sz)) :
    desktop_lookup h disp win = some d := by
  unfold desktop_lookup
  rw [hn]

theorem desktop_lookup_win (h : Host) (disp : Display) (win : Nat) (e : Error) (d : List Nat)
    (sz : Nat) (hn : get_property h disp win XA_CARDINAL "_NET_WM_DESKTOP" = .error e)
    (hw : get_property h disp win XA_CARDINAL "_WIN_WORKSPACE" = .ok (d, sz)) :
    desktop_lookup h disp win = some d := by
  unfold desktop_lookup
  rw [hn]
  simp only [hw]

theorem desktop_lookup_none (h : Host) (disp : Display) (win : Nat) (e1 e2 : Error)
    (hn : get_property h disp win XA_CARDINAL "_NET_WM_DESKTOP" = .error e1)
    (hw : get_property h disp win XA_CARDINAL "_WIN_WORKSPACE" = .error e2) :
    desktop_lookup h disp win = none := by
  unfold desktop_lookup
  rw [hn]
  simp only [hw]

theorem desktop_lookup_eq_none_iff (h : Host) (disp : Display) (win : Nat) :
    desktop_lookup h disp win = none ↔
      lacks (property_request h disp win XA_CARDINAL "_NET_WM_DESKTOP") XA_CARDINAL ∧
      lacks (property_request h disp win XA_CARDINAL "_WIN_WORKSPACE") XA_CARDINAL := by
  constructor
  · intro hd
    by_contra hc
    rw [not_and_or] at hc
    by_cases h1 : lacks (property_request h disp win XA_CARDINAL "_NET_WM_DESKTOP") XA_CARDINAL
    · have h2 := hc.resolve_left (not_not.mpr h1)
      obtain ⟨e, he, -⟩ := get_property_of_lacks h disp win _ _ h1
      obtain ⟨r, hr⟩ := get_property_of_not_lacks h disp win _ _ h2
      rw [desktop_lookup_win h disp win e r.1 r.2 he hr] at hd
      cases hd
    · obtain ⟨r, hr⟩ := get_property_of_not_lacks h disp win _ _ h1
      rw [desktop_lookup_net h disp win r.1 r.2 hr] at hd
      cases hd
  · rintro ⟨h1, h2⟩
    obtain ⟨e1, he1, -⟩ := get_property_of_lacks h disp win _ _ h1
    obtain ⟨e2, he2, -⟩ := get_property_of_lacks h disp win _ _ h2
    exact desktop_lookup_none h disp win e1 e2 he1 he2

theorem read_single_cardinal (h : Host) (hl : h.sizeof_long = 4 ∨ h.sizeof_long = 8) (v : Nat) :
    (read_ulong h (xlib_longs h [v] ++ [0]) 0).map h.to_long = some (signed32 v) := by
  rw [read_ulong_xlib_longs h hl [v] [0] 0 (by simp)]
  simp [to_long_xlib_long h hl]

theorem single_item_fits (h : Host) (hl : h.sizeof_long = 4 ∨ h.sizeof_long = 8) :
    [0].length * h.sizeof_long < h.ulong_range := by
  rcases hl with hl | hl
  · rw [ulong_range_four h hl, hl]; decide
  · rw [ulong_range_eight h hl, hl]; decide

/-! ## Desktop ids and printed lines -/

theorem window_entry_desktop (h : Host) (disp : Display) (hl : h.sizeof_long = 4 ∨ h.sizeof_long = 8)
    (cl : List Nat) (i : Nat) :
    (∀ v, holds_items h (property_request h disp (client_at h cl i) XA_CARDINAL
        "_NET_WM_DESKTOP") XA_CARDINAL [v] →
      (window_entry h disp cl i).1.desktop_id = some (signed32 v)) ∧
    (∀ v, lacks (property_request h disp (client_at h cl i) XA_CARDINAL "_NET_WM_DESKTOP")
        XA_CARDINAL →
      holds_items h (property_request h disp (client_at h cl i) XA_CARDINAL "_WIN_WORKSPACE")
        XA_CARDINAL [v] →
      (window_entry h disp cl i).1.desktop_id = some (signed32 v)) ∧
    (lacks (property_request h disp (client_at h cl i) XA_CARDINAL "_NET_WM_DESKTOP")
        XA_CARDINAL →
      lacks (property_request h disp (client_at h cl i) XA_CARDINAL "_WIN_WORKSPACE")
        XA_CARDINAL →
      (window_entry h disp cl i).1.desktop_id = some (-2) ∧
      (window_entry h disp cl i).2.desktop = some 0) := by
  refine ⟨?_, ?_, ?_⟩
  · intro v hv
    have hg := get_property_items h disp _ _ _ [v] hl (single_item_fits h hl) hv
    have hd := desktop_lookup_net h disp _ _ _ hg
    simp only [window_entry, hd]
    exact read_single_cardinal h hl v
  · intro v hn hv
    obtain ⟨e, he, -⟩ := get_property_of_lacks h disp _ _ _ hn
    have hg := get_property_items h disp _ _ _ [v] hl (single_item_fits h hl) hv
    have hd := desktop_lookup_win h disp _ e _ _ he hg
    simp only [window_entry, hd]
    exact read_single_cardinal h hl v
  · intro hn hw
    have hd := (desktop_lookup_eq_none_iff h disp _).mpr ⟨hn, hw⟩
    simp only [window_entry, hd, to_long_minus_two h hl, and_self]

theorem window_entry_printed (h : Host) (disp : Display) (cl : List Nat) (i : Nat)
    (hd : desktop_lookup h disp (client_at h cl i) ≠ none) :
    (window_entry h disp cl i).2.desktop = (window_entry h disp cl i).1.desktop_id := by
  cases hc : desktop_lookup h disp (client_at h cl i) with
  | none => exact absurd hc hd
  | some d => simp only [window_entry, hc]

/-- C5 as stated fails: a window whose `_NET_WM_DESKTOP` is present with the
cardinal `0xFFFFFFFE` is recorded with desktop id -2, so -2 does not occur only
when both desktop properties are absent. -/
theorem desktop_id_minus_two_with_property :
    (create_window_info host64 (desktop_fffffffe host64)).window_info.map
        (List.map WindowInfo.desktop_id) = some [some (-2)] ∧
    (create_window_info host64 (desktop_fffffffe host64)).client_list = [7] ∧
    holds_items host64 (property_request host64 (desktop_fffffffe host64) 7 XA_CARDINAL
      "_NET_WM_DESKTOP") XA_CARDINAL [0xFFFFFFFE] ∧
    ¬ lacks (property_request host64 (desktop_fffffffe host64) 7 XA_CARDINAL "_NET_WM_DESKTOP")
      XA_CARDINAL := by
  decide

/-- C5 amended: for every entry `i` of the result, with `win` the `i`-th
window of the client list: if `_NET_WM_DESKTOP` holds the cardinal `v` the
recorded desktop id is `v` reinterpreted as signed; else if `_WIN_WORKSPACE`
holds `v` it is `v` reinterpreted as signed; and if both are absent it is -2. -/
theorem create_window_info_desktop_id (h : Host) (disp : Display)
    (hl : h.sizeof_long = 4 ∨ h.sizeof_long = 8) (i : Nat)
    (hi : i < (create_window_info h disp).ret) :
    ∃ ws w, (create_window_info h disp).window_info = some ws ∧ ws[i]? = some w ∧
      (∀ v, holds_items h (property_request h disp
          ((create_window_info h disp).client_list.getD i 0) XA_CARDINAL "_NET_WM_DESKTOP")
          XA_CARDINAL [v] →
        w.desktop_id = some (signed32 v)) ∧
      (∀ v, lacks (property_request h disp
          ((create_window_info h disp).client_list.getD i 0) XA_CARDINAL "_NET_WM_DESKTOP")
          XA_CARDINAL →
        holds_items h (property_request h disp
          ((create_window_info h disp).client_list.getD i 0) XA_CARDINAL "_WIN_WORKSPACE")
          XA_CARDINAL [v] →
        w.desktop_id = some (signed32 v)) ∧
      (lacks (property_request h disp
          ((create_window_info h disp).client_list.getD i 0) XA_CARDINAL "_NET_WM_DESKTOP")
          XA_CARDINAL →
        lacks (property_request h disp
          ((create_window_info h disp).client_list.getD i 0) XA_CARDINAL "_WIN_WORKSPACE")
          XA_CARDINAL →
        w.desktop_id = some (-2)) ∧
      signed32 0xFFFFFFFF = -1 ∧ signed32 3 = 3 := by
  obtain ⟨cl, sz, -, -, -, -, -, ⟨ws, hws, -, hw⟩, -, hc⟩ := create_window_info_entry h disp i hi
  have hwin : (create_window_info h disp).client_list.getD i 0 = client_at h cl i := by
    rw [List.getD_eq_getElem?_getD, hc]; rfl
  rw [hwin]
  obtain ⟨h1, h2, h3⟩ := window_entry_desktop h disp hl cl i
  exact ⟨ws, _, hws, hw, h1, h2, fun a b => (h3 a b).1, by decide, by decide⟩

/-- C5 amended, at window 9 of `two_windows`, whose `_NET_WM_DESKTOP` is
`0xFFFFFFFF`: the recorded desktop id is -1. -/
theorem create_window_info_desktop_id_witness :
    ∃ ws w, (create_window_info host64 (two_windows host64)).window_info = some ws ∧
      ws[1]? = some w ∧ w.desktop_id = some (-1) := by
  obtain ⟨ws, w, h1, h2, h3, -, -, h4, -⟩ :=
    create_window_info_desktop_id host64 (two_windows host64) (by decide) 1 (by decide)
  exact ⟨ws, w, h1, h2, by rw [h3 0xFFFFFFFF (by decide), h4]⟩

/-- C10 as stated fails: for a window without desktop properties the printed
line shows desktop 0 while the recorded desktop id is -2, so the line is not
the format applied to the recorded id. -/
theorem printed_desktop_differs_from_recorded :
    ∃ a w, (create_window_info host64 (lone_window host64)).stdout = [a] ∧
      (create_window_info host64 (lone_window host64)).window_info = some [w] ∧
      w.desktop_id = some (-2) ∧ a.desktop = some 0 ∧
      render_line a = some (bytes_of "0x00000007  0 UNKNOWN 0\n") ∧
      render_line ⟨7, w.desktop_id, w.title⟩ = some (bytes_of "0x00000007 -2 UNKNOWN 0\n") ∧
      render_line a ≠ render_line ⟨7, w.desktop_id, w.title⟩ :=
  ⟨⟨7, some 0, snprintf_unknown 0⟩, ⟨0, some (-2), snprintf_unknown 0⟩,
    by decide, by decide, by decide, by decide, by decide, by decide, by decide⟩

/-- C10 amended: `create_window_info` calls `printf` once per window, in list
order; the call for entry `i` receives the `i`-th window identifier, the title
recorded in entry `i`, and as desktop the recorded desktop id when a desktop
property was found, but 0 (while -2 is recorded) when both are absent. -/
theorem create_window_info_printed (h : Host) (disp : Display)
    (hl : h.sizeof_long = 4 ∨ h.sizeof_long = 8) :
    (create_window_info h disp).stdout.length = (create_window_info h disp).ret ∧
    ∀ i, i < (create_window_info h disp).ret →
      ∃ ws w a, (create_window_info h disp).window_info = some ws ∧ ws[i]? = some w ∧
        (create_window_info h disp).stdout[i]? = some a ∧
        (create_window_info h disp).client_list[i]? = some a.win ∧
        a.title = w.title ∧
        (lacks (property_request h disp a.win XA_CARDINAL "_NET_WM_DESKTOP") XA_CARDINAL ∧
          lacks (property_request h disp a.win XA_CARDINAL "_WIN_WORKSPACE") XA_CARDINAL →
            a.desktop = some 0 ∧ w.desktop_id = some (-2)) ∧
        (¬ (lacks (property_request h disp a.win XA_CARDINAL "_NET_WM_DESKTOP") XA_CARDINAL ∧
          lacks (property_request h disp a.win XA_CARDINAL "_WIN_WORKSPACE") XA_CARDINAL) →
            a.desktop = w.desktop_id) := by
  constructor
  · cases hg : get_client_list h disp with
    | error e => rw [create_window_info_of_error h disp e hg]; rfl
    | ok r =>
      obtain ⟨cl, sz⟩ := r
      rw [create_window_info_of_ok h disp cl sz hg]
      simp
  · intro i hi
    obtain ⟨cl, sz, -, -, -, -, -, ⟨ws, hws, -, hw⟩, ha, hc⟩ :=
      create_window_info_entry h disp i hi
    refine ⟨ws, _, _, hws, hw, ha, hc, rfl, ?_, ?_⟩
    · rintro ⟨hn, hwk⟩
      have := (window_entry_desktop h disp hl cl i).2.2 hn hwk
      exact ⟨this.2, this.1⟩
    · intro hne
      apply window_entry_printed
      intro hd
      exact hne ((desktop_lookup_eq_none_iff h disp _).mp hd)

/-- C10 amended, at `two_windows`: two lines for two windows, the second with
desktop -1 as recorded. -/
theorem create_window_info_printed_witness :
    (create_window_info host64 (two_windows host64)).stdout.length = 2 ∧
    (create_window_info host64 (two_windows host64)).stdout.map PrintfArgs.desktop
      = [some 0, some (-1)] :=
  ⟨(create_window_info_printed host64 (two_windows host64) (by decide)).1.trans (by decide),
   by decide⟩

/-! ## Window count and placeholder titles -/

theorem xlib_long_of_small (h : Host) (v : Nat) (hv : v < 2 ^ 31) : xlib_long h v = v := by
  unfold xlib_long
  have h1 : v % 2 ^ 32 = v := Nat.mod_eq_of_lt (by omega)
  rw [h1, if_neg (by omega)]

theorem client_at_xlib_longs (h : Host) (hl : h.sizeof_long = 4 ∨ h.sizeof_long = 8)
    (ids : List Nat) (i : Nat) (hi : i < ids.length) :
    client_at h (xlib_longs h ids ++ [0]) i = xlib_long h (ids.getD i 0) := by
  unfold client_at
  rw [read_ulong_xlib_longs h hl ids [0] i hi]
  rfl

theorem map_xlib_long_of_small (h : Host) (ids : List Nat) (hids : ∀ v ∈ ids, v < 2 ^ 31) :
    ids.map (xlib_long h) = ids := by
  induction ids with
  | nil => rfl
  | cons v vs ih =>
    rw [List.map_cons, xlib_long_of_small h v (hids v (List.mem_cons_self _ _)),
      ih (fun x hx => hids x (List.mem_cons_of_mem _ hx))]

theorem get_client_list_items (h : Host) (disp : Display) (ids : List Nat)
    (hl : h.sizeof_long = 4 ∨ h.sizeof_long = 8)
    (hfit : ids.length * h.sizeof_long < h.ulong_range)
    (hlist : holds_items h (property_request h disp disp.DefaultRootWindow XA_WINDOW
        "_NET_CLIENT_LIST") XA_WINDOW ids ∨
      (lacks (property_request h disp disp.DefaultRootWindow XA_WINDOW "_NET_CLIENT_LIST")
          XA_WINDOW ∧
        holds_items h (property_request h disp disp.DefaultRootWindow XA_CARDINAL
          "_WIN_CLIENT_LIST") XA_CARDINAL ids)) :
    get_client_list h disp = .ok (xlib_longs h ids ++ [0], ids.length * h.sizeof_long) := by
  unfold get_client_list
  rcases hlist with hn | ⟨hn, hw⟩
  · rw [get_property_items h disp _ _ _ ids hl hfit hn]
  · obtain ⟨e, he, -⟩ := get_property_of_lacks h disp _ _ _ hn
    rw [he]
    simp only [get_property_items h disp _ _ _ ids hl hfit hw]

/-- C7: when the server delivers a client list of `n` window identifiers as a
32-bit-format property (`_NET_CLIENT_LIST`, or `_WIN_CLIENT_LIST` when the
former is missing), on a host with 4- or 8-byte `long`, `create_window_info`
stores no error, returns `n`, and entry `i` points at element `i` of the
client list, which holds the `i`-th identifier as Xlib delivered it (the
identifier itself when it is below `2 ^ 31`, as every X resource id is); for
`n = 0` the result is empty and no error is stored. -/
theorem create_window_info_count (h : Host) (disp : Display) (ids : List Nat)
    (hl : h.sizeof_long = 4 ∨ h.sizeof_long = 8)
    (hfit : ids.length * h.sizeof_long < h.ulong_range)
    (hlist : holds_items h (property_request h disp disp.DefaultRootWindow XA_WINDOW
        "_NET_CLIENT_LIST") XA_WINDOW ids ∨
      (lacks (property_request h disp disp.DefaultRootWindow XA_WINDOW "_NET_CLIENT_LIST")
          XA_WINDOW ∧
        holds_items h (property_request h disp disp.DefaultRootWindow XA_CARDINAL
          "_WIN_CLIENT_LIST") XA_CARDINAL ids)) :
    (create_window_info h disp).err = none ∧
    (create_window_info h disp).ret = ids.length ∧
    (create_window_info h disp).client_list = ids.map (xlib_long h) ∧
    ((∀ v ∈ ids, v < 2 ^ 31) → (create_window_info h disp).client_list = ids) ∧
    (create_window_info h disp).stdout.length = ids.length ∧
    ∀ i, i < ids.length →
      ∃ ws w, (create_window_info h disp).window_info = some ws ∧ ws.length = ids.length ∧
        ws[i]? = some w ∧ w.win = i := by
  have hg := get_client_list_items h disp ids hl hfit hlist
  have hpos : 0 < h.sizeof_long := by rcases hl with hl | hl <;> omega
  have hn : ids.length * h.sizeof_long / h.sizeof_long = ids.length :=
    Nat.mul_div_cancel _ hpos
  have hr := create_window_info_of_ok h disp _ _ hg
  rw [hn] at hr
  have hcl : (List.range ids.length).map (client_at h (xlib_longs h ids ++ [0]))
      = ids.map (xlib_long h) := by
    apply List.ext_getElem
    · simp
    · intro i h1 h2
      have h3 : i < ids.length := by simpa using h1
      simp only [List.getElem_map, List.getElem_range]
      rw [client_at_xlib_longs h hl ids i h3, List.getD_eq_getElem _ _ h3]
  rw [hr]
  refine ⟨rfl, rfl, hcl, fun hids => hcl.trans (map_xlib_long_of_small h ids hids), by simp, ?_⟩
  intro i hi
  have hne : ids.length ≠ 0 := by omega
  refine ⟨((List.range ids.length).map (window_entry h disp (xlib_longs h ids ++ [0]))).map
      Prod.fst, (window_entry h disp (xlib_longs h ids ++ [0]) i).1,
    by simp only [hne, if_false], by simp, ?_, rfl⟩
  simp [List.getElem?_map, List.getElem?_range hi]

/-- C7 at `two_windows` on both hosts, and at an empty `_NET_CLIENT_LIST`. -/
theorem create_window_info_count_witness :
    ((create_window_info host64 (two_windows host64)).ret = 2 ∧
      (create_window_info host64 (two_windows host64)).client_list = [7, 9]) ∧
    ((create_window_info host32 (two_windows host32)).ret = 2 ∧
      (create_window_info host32 (two_windows host32)).client_list = [7, 9]) ∧
    ((create_window_info host64 (empty_client_list host64)).ret = 0 ∧
      (create_window_info host64 (empty_client_list host64)).err = none) :=
  ⟨(fun t => ⟨t.2.1, t.2.2.2.1 (by decide)⟩)
      (create_window_info_count host64 (two_windows host64) [7, 9]
        (by decide) (by decide) (by decide)),
   (fun t => ⟨t.2.1, t.2.2.2.1 (by decide)⟩)
      (create_window_info_count host32 (two_windows host32) [7, 9]
        (by decide) (by decide) (by decide)),
   (fun t => ⟨t.2.1, t.1⟩) (create_window_info_count host64 (empty_client_list host64) []
      (by decide) (by decide) (by decide))⟩

theorem digitChar_toNat_ne_zero (n : Nat) : (Nat.digitChar (n % 10)).toNat ≠ 0 := by
  have hlt : n % 10 < 10 := Nat.mod_lt _ (by decide)
  generalize n % 10 = m at hlt
  interval_cases m <;> decide

theorem toDigitsCore_ne_zero (fuel n : Nat) (acc : List Char)
    (hacc : ∀ c ∈ acc, c.toNat ≠ 0) : ∀ c ∈ Nat.toDigitsCore 10 fuel n acc, c.toNat ≠ 0 := by
  induction fuel generalizing n acc with
  | zero => simpa [Nat.toDigitsCore] using hacc
  | succ f ih =>
    have hcons : ∀ c ∈ Nat.digitChar (n % 10) :: acc, c.toNat ≠ 0 := by
      intro c hc
      rcases List.mem_cons.mp hc with rfl | hc
      · exact digitChar_toNat_ne_zero _
      · exact hacc c hc
    simp only [Nat.toDigitsCore]
    split_ifs
    · exact hcons
    · exact ih _ _ hcons

theorem bytes_of_append (a b : String) : bytes_of (a ++ b) = bytes_of a ++ bytes_of b := by
  simp [bytes_of, String.toList]

theorem bytes_of_repr_ne_zero (i : Nat) : ∀ b ∈ bytes_of (toString i), b ≠ 0 := by
  intro b hb
  simp only [bytes_of, String.toList, List.mem_map] at hb
  obtain ⟨c, hc, rfl⟩ := hb
  exact toDigitsCore_ne_zero _ _ [] (by simp) c hc

theorem length_bytes_of_repr (i : Nat) (hi : i < 10 ^ 7) : (bytes_of (toString i)).length ≤ 7 := by
  have := Nat.repr_length i 7 (by decide) hi
  unfold bytes_of
  rw [List.length_map]
  exact this

theorem snprintf_unknown_full (i : Nat) (hi : i < 10 ^ 7) :
    c_string_of (snprintf_unknown i) = some (bytes_of ("UNKNOWN " ++ toString i)) := by
  have hlen : (bytes_of ("UNKNOWN " ++ toString i)).length ≤ 15 := by
    rw [bytes_of_append, List.length_append]
    have := length_bytes_of_repr i hi
    have h8 : (bytes_of "UNKNOWN ").length = 8 := by decide
    omega
  have hnz : ∀ b ∈ bytes_of ("UNKNOWN " ++ toString i), b ≠ 0 := by
    rw [bytes_of_append]
    intro b hb
    rcases List.mem_append.mp hb with hb | hb
    · have hu : ∀ b ∈ bytes_of "UNKNOWN ", b ≠ 0 := by decide
      exact hu b hb
    · exact bytes_of_repr_ne_zero i b hb
  unfold snprintf_unknown
  simp only [List.take_of_length_le hlen, List.map_append, List.map_cons, List.map_nil,
    List.append_assoc, List.singleton_append]
  exact c_string_of_terminated _ hnz _

theorem get_window_title_of_lacks (h : Host) (disp : Display) (win : Nat)
    (hnet : lacks (property_request h disp win (disp.XInternAtom "UTF8_STRING") "_NET_WM_NAME")
      (disp.XInternAtom "UTF8_STRING"))
    (hwm : lacks (property_request h disp win XA_STRING "WM_NAME") XA_STRING) :
    (get_window_title h disp win).title_utf8 = none := by
  obtain ⟨e1, he1, -⟩ := get_property_of_lacks h disp win _ _ hnet
  obtain ⟨e2, he2, -⟩ := get_property_of_lacks h disp win _ _ hwm
  unfold get_window_title
  simp only [he1, he2]

theorem get_property_count_le (h : Host) (disp : Display) (win ty : Nat) (name : String)
    (buf : List Nat) (sz : Nat) (hl : h.sizeof_long = 4 ∨ h.sizeof_long = 8)
    (hcap : within_cap h (property_request h disp win ty name))
    (hg : get_property h disp win ty name = .ok (buf, sz)) :
    sz / h.sizeof_long ≤ h.MAX_PROPERTY_VALUE_LEN / 4 := by
  unfold get_property at hg
  unfold within_cap at hcap
  by_cases hs : (property_request h disp win ty name).status = Success
  · by_cases ht : (property_request h disp win ty name).xa_ret_type = ty
    · simp only [hs, ht, ne_eq, not_true_eq_false, if_false, Except.ok.injEq,
        Prod.mk.injEq] at hg
      obtain ⟨-, rfl⟩ := hg
      generalize (property_request h disp win ty name).ret_format / 8
        * (property_request h disp win ty name).ret_nitems = x at hcap ⊢
      generalize h.MAX_PROPERTY_VALUE_LEN / 4 = m at hcap ⊢
      rcases hl with hl | hl
      · rw [ulong_range_four h hl, hl]
        split_ifs <;> omega
      · rw [ulong_range_eight h hl, hl]
        split_ifs <;> omega
    · simp [hs, ht] at hg
  · simp [hs] at hg

theorem get_client_list_count_le (h : Host) (disp : Display) (cl : List Nat) (sz : Nat)
    (hl : h.sizeof_long = 4 ∨ h.sizeof_long = 8)
    (hcap1 : within_cap h (property_request h disp disp.DefaultRootWindow XA_WINDOW
      "_NET_CLIENT_LIST"))
    (hcap2 : within_cap h (property_request h disp disp.DefaultRootWindow XA_CARDINAL
      "_WIN_CLIENT_LIST"))
    (hg : get_client_list h disp = .ok (cl, sz)) :
    sz / h.sizeof_long ≤ h.MAX_PROPERTY_VALUE_LEN / 4 := by
  unfold get_client_list at hg
  cases hn : get_property h disp disp.DefaultRootWindow XA_WINDOW "_NET_CLIENT_LIST" with
  | ok r =>
    rw [hn] at hg
    simp only [Except.ok.injEq] at hg
    rw [hg] at hn
    exact get_property_count_le h disp _ _ _ cl sz hl hcap1 hn
  | error e =>
    rw [hn] at hg
    cases hw : get_property h disp disp.DefaultRootWindow XA_CARDINAL "_WIN_CLIENT_LIST" with
    | ok r =>
      rw [hw] at hg
      simp only [Except.ok.injEq] at hg
      rw [hg] at hw
      exact get_property_count_le h disp _ _ _ cl sz hl hcap2 hw
    | error e2 =>
      rw [hw] at hg
      simp at hg

/-- C6: for every position `i` of the client list whose window has neither a
usable `_NET_WM_NAME` (as `UTF8_STRING`) nor a usable `WM_NAME` (as `STRING`),
`get_window_title` returns no title, `create_window_info` stores no error, and
entry `i` carries the title "UNKNOWN <i>" with the full decimal index: with
the client list within the retrieval cap (and `MAX_PROPERTY_VALUE_LEN` at most
40000000) the 16-byte buffer never truncates it. -/
theorem create_window_info_unknown_title (h : Host) (disp : Display)
    (hl : h.sizeof_long = 4 ∨ h.sizeof_long = 8)
    (hmax : h.MAX_PROPERTY_VALUE_LEN ≤ 40000000)
    (hcap1 : within_cap h (property_request h disp disp.DefaultRootWindow XA_WINDOW
      "_NET_CLIENT_LIST"))
    (hcap2 : within_cap h (property_request h disp disp.DefaultRootWindow XA_CARDINAL
      "_WIN_CLIENT_LIST"))
    (i : Nat) (hi : i < (create_window_info h disp).ret)
    (hnet : lacks (property_request h disp ((create_window_info h disp).client_list.getD i 0)
      (disp.XInternAtom "UTF8_STRING") "_NET_WM_NAME") (disp.XInternAtom "UTF8_STRING"))
    (hwm : lacks (property_request h disp ((create_window_info h disp).client_list.getD i 0)
      XA_STRING "WM_NAME") XA_STRING) :
    (get_window_title h disp ((create_window_info h disp).client_list.getD i 0)).title_utf8
      = none ∧
    (create_window_info h disp).err = none ∧
    ∃ ws w, (create_window_info h disp).window_info = some ws ∧ ws[i]? = some w ∧
      c_string_of w.title = some (bytes_of ("UNKNOWN " ++ toString i)) := by
  obtain ⟨cl, sz, hg, hlt, -, herr, -, ⟨ws, hws, -, hw⟩, -, hc⟩ :=
    create_window_info_entry h disp i hi
  have hwin : (create_window_info h disp).client_list.getD i 0 = client_at h cl i := by
    rw [List.getD_eq_getElem?_getD, hc]; rfl
  rw [hwin] at hnet hwm ⊢
  have hnone := get_window_title_of_lacks h disp _ hnet hwm
  have hbound := get_client_list_count_le h disp cl sz hl hcap1 hcap2 hg
  have hi7 : i < 10 ^ 7 := by omega
  refine ⟨hnone, herr, ws, _, hws, hw, ?_⟩
  simp only [window_entry, hnone]
  exact snprintf_unknown_full i hi7

/-- C6 at `lone_window`: the only window has no title property and is recorded
as "UNKNOWN 0". -/
theorem create_window_info_unknown_title_witness :
    (get_window_title host64 (lone_window host64)
      ((create_window_info host64 (lone_window host64)).client_list.getD 0 0)).title_utf8
      = none ∧
    (create_window_info host64 (lone_window host64)).err = none ∧
    ∃ ws w, (create_window_info host64 (lone_window host64)).window_info = some ws ∧
      ws[0]? = some w ∧ c_string_of w.title = some (bytes_of ("UNKNOWN " ++ toString 0)) :=
  create_window_info_unknown_title host64 (lone_window host64) (by decide) (by decide)
    (by decide) (by decide) 0 (by decide) (by decide) (by decide)

/-! ## The terminating NUL of `locale_to_utf8` -/

/-- Where the terminating NUL goes: when `iconv` copies the `n` bytes of the
source unchanged, `locale_to_utf8` stores the NUL at offset
`2 * n - MAX_PROPERTY_VALUE_LEN` from the start of the buffer, which is never
the offset `n` behind the copied text. -/
theorem locale_to_utf8_nul_offset (h : Host) (hl : h.sizeof_long = 4 ∨ h.sizeof_long = 8)
    (s : List Nat) (size : Nat) (hnz : ∀ b ∈ s, b ≠ 0)
    (hmax : h.MAX_PROPERTY_VALUE_LEN < 2 ^ 31) (hlen : s.length < h.MAX_PROPERTY_VALUE_LEN)
    (hconv : h.iconv s (h.MAX_PROPERTY_VALUE_LEN - 1) = ⟨0, s.length, s⟩) :
    locale_to_utf8 h (s ++ [0]) size
      = ⟨0, s.enum.map (fun p => ((p.1 : Int), p.2))
          ++ [(2 * (s.length : Int) - (h.MAX_PROPERTY_VALUE_LEN : Int), 0)]⟩ := by
  have hc : c_str (s ++ [0]) = s := c_str_append_nul s [] hnz
  have hout : h.to_ulong ((h.MAX_PROPERTY_VALUE_LEN : Int) - 1)
      = h.MAX_PROPERTY_VALUE_LEN - 1 := by
    unfold Host.to_ulong
    rcases hl with hl | hl
    · rw [ulong_range_four h hl]; omega
    · rw [ulong_range_eight h hl]; omega
  unfold locale_to_utf8
  simp only [hc, hout, hconv]
  have hoff : h.to_long (h.to_ulong ((s.length : Int) + (h.to_ulong
      ((h.to_ulong ((s.length : Int) - (s.length : Int)) : Int) - 1
        - (h.to_ulong (((h.MAX_PROPERTY_VALUE_LEN - 1 : Nat) : Int) - (s.length : Int)) : Int))
      : Int)))
      = 2 * (s.length : Int) - (h.MAX_PROPERTY_VALUE_LEN : Int) := by
    unfold Host.to_long Host.to_ulong
    rcases hl with hl | hl
    · rw [ulong_range_four h hl]; split_ifs <;> omega
    · rw [ulong_range_eight h hl]; split_ifs <;> omega
  simp only [hoff]
  simp

/-- C2 fails on the code: for window 9 of `two_windows`, which has only
`WM_NAME = "Beta"`, `locale_to_utf8` copies the four bytes and then stores the
NUL at offset -4088 from the start of the buffer instead of offset 4, so the
returned buffer holds "Beta" followed by an indeterminate cell and is not a
terminated string. -/
theorem get_window_title_legacy_not_terminated :
    locale_to_utf8 host64 (bytes_of "Beta" ++ [0]) 4096
      = ⟨0, [(0, 66), (1, 101), (2, 116), (3, 97), (-4088, 0)]⟩ ∧
    ∃ buf, (get_window_title host64 (two_windows host64) 9).title_utf8 = some buf ∧
      buf.take 5 = [some 66, some 101, some 116, some 97, none] ∧
      c_string_of buf = none := by
  refine ⟨by decide, (List.foldl store (malloc 4096)
    [(0, 66), (1, 101), (2, 116), (3, 97), (-4088, 0)]), by decide!, by decide!,
    by decide!⟩

/-- C9 fails on the code: called as `get_window_title` calls it, with the text
"Beta" and a buffer of 4096 bytes, `locale_to_utf8` stores the terminating NUL
at offset -4088, outside the buffer. -/
theorem locale_to_utf8_writes_outside :
    ∃ w ∈ (locale_to_utf8 host64 (bytes_of "Beta" ++ [0]) 4096).writes,
      w = (-4088, 0) ∧ ¬ (0 ≤ w.1 ∧ w.1 < 4096) :=
  ⟨(-4088, 0), by decide, rfl, by decide⟩

end Xwindows
